import Mathlib

/-!
Verification development for the batch image-to-3D conversion script
`batch_csm_image_to_3d.py`.

Shallow embedding conventions.

HTTP responses are modelled as values already delivered to the script:
a numeric status code, the raw text, and the parsed JSON body.  The body
is an `Option` of a structure holding exactly the fields the script
reads; `none` models a body that `resp.json()` cannot parse, in which
case the Python call raises.  A Python exception propagating out of a
function is modelled as `Except.error`; a normal return is `Except.ok`.
Falsy-string checks of the script (`if not data.get(...)`) are modelled
by `Option` values where `none` covers a missing or falsy field, and an
explicit emptiness test where the script can receive `""`.

Filesystem and network side effects of one job are recorded as an event
trace: the submission POST, each polling GET, the artifact download GET,
the bytes written at the artifact destination path, and the relocation
of the source image.  `time.sleep` and console printing are ignored;
`os.makedirs` and `shutil.move` are assumed not to raise.

The orchestrator (`main`) dispatches one `process_image` per listed
image to a worker pool and collects results with `as_completed`, which
yields them in an arbitrary completion order; `future.result()`
re-raises any exception of the job, aborting the collection loop.  This
is modelled by `collectSummary` running over an arbitrary permutation of
the image list and stopping at the first exceptional job.
-/

/-- Module-level directory constants of the script. -/
def CONCEPTS_DIR : String := "content/concepts"

/-- Destination directory for processed (relocated) source images. -/
def PROCESSED_DIR : String := "content/processed"

/-- Destination directory for downloaded artifacts. -/
def RESULT_DIR : String := "content/result"

/-- ASCII lowercasing, as `str.lower` acts on the filenames involved. -/
def pyLower (s : String) : String :=
  String.mk (s.data.map Char.toLower)

/-- The filter `f.lower().endswith((".png", ".jpg"))` — the filter used by
`get_image_files`. -/
def isImageFile (f : String) : Bool :=
  List.isSuffixOf ".png".data (pyLower f).data
    || List.isSuffixOf ".jpg".data (pyLower f).data

/-- Model of `get_image_files`, with the directory listing passed as a value. -/
def get_image_files (listing : List String) : List String :=
  listing.filter (fun f => isImageFile f)

/-- Index of the last occurrence of `c`, as in Python `str.rfind`. -/
def lastIndexOf (cs : List Char) (c : Char) : Option Nat :=
  match cs with
  | [] => none
  | x :: xs =>
    match lastIndexOf xs c with
    | some i => some (i + 1)
    | none => if x = c then some 0 else none

/-- Root part of `os.path.splitext`: the name is split at the last dot
that lies after the last path separator, unless every character of the
base name before that dot is itself a dot. -/
def splitextRoot (p : String) : String :=
  let cs := p.data
  let start : Nat :=
    match lastIndexOf cs '/' with
    | some i => i + 1
    | none => 0
  match lastIndexOf cs '.' with
  | none => p
  | some dot =>
    if start ≤ dot
        ∧ ((List.range (dot - start)).any
            (fun k => cs.get? (start + k) != some '.')) = true
    then String.mk (cs.take dot)
    else p

/-- Model of `os.path.join(RESULT_DIR, base_name + ".glb")` for a relative
`base_name`, as computed in `process_image` from the image name. -/
def out_path_for (img : String) : String :=
  RESULT_DIR ++ "/" ++ splitextRoot img ++ ".glb"

/-- The `data` object of a session-creation response: the script only
reads `data["data"]["session_code"]`.  `none` models a missing or falsy
field. -/
structure StartData where
  session_code : Option String
deriving DecidableEq

/-- Parsed JSON body of a session-creation response. -/
structure StartBody where
  data : Option StartData
deriving DecidableEq

/-- A session-creation HTTP response.  `body = none` models a body that
`resp.json()` fails to parse (the call raises). -/
structure Response where
  status_code : Nat
  text : String
  body : Option StartBody
deriving DecidableEq

/-- Model of `start_session` (lines 68-85): returns the pair
`(session_code, err)` the script returns; `Except.error` models the
exception raised by `resp.json()` on an unparseable body.  The script's
`"Unexpected response"` message interpolates the parsed data; the model
carries the raw response text in its place. -/
def start_session (resp : Response) : Except String (Option String × Option String) :=
  if resp.status_code = 200 ∨ resp.status_code = 201 then
    match resp.body with
    | none => Except.error "JSONDecodeError"
    | some b =>
      match b.data with
      | none => Except.ok (none, some ("Unexpected response: " ++ resp.text))
      | some d =>
        match d.session_code with
        | none => Except.ok (none, some ("Unexpected response: " ++ resp.text))
        | some sc =>
          if sc = "" then Except.ok (none, some ("Unexpected response: " ++ resp.text))
          else Except.ok (some sc, none)
  else Except.ok (none, some ("Failed to start session: " ++ resp.text))

/-- The `data` object of a status poll: the script reads
`session_status`, `percent_done` (advisory only) and, after completion,
`mesh_url_glb`. -/
structure PollData where
  session_status : Option String
  percent_done : Nat
  mesh_url_glb : Option String
deriving DecidableEq

/-- Parsed JSON body of a status-poll response; `data = none` models
`data.get("data", {})` falling back to the empty dict. -/
structure PollBody where
  data : Option PollData
deriving DecidableEq

/-- A status-poll HTTP response; `json = none` models an unparseable
body (`resp.json()` raises). -/
structure PollResponse where
  status_code : Nat
  text : String
  json : Option PollBody
deriving DecidableEq

/-- Result of one `poll_session` call: the session payload on
`"complete"`, the script's error string otherwise, or a raised
exception. -/
inductive PollOutcome
  | ok (d : PollData)
  | err (msg : String)
  | exn (msg : String)
deriving DecidableEq

/-- Number of iterations of the `while waited < timeout` loop when every
iteration adds `poll_interval` to `waited`: the least `k` with
`k * interval ≥ timeout`, i.e. `⌈timeout / interval⌉` for a positive
interval.  For `interval = 0` the source loop never terminates; the
model is only used with positive intervals. -/
def poll_count (interval timeout : Nat) : Nat :=
  (timeout + interval - 1) / interval

/-- Loop body of `poll_session` (lines 96-111).  `polls k` is the
response to the `k`-th GET of this session; the second component counts
the GET requests issued.  Fuel is the remaining number of loop
iterations allowed by the timeout. -/
def poll_session_go (polls : Nat → PollResponse) (i : Nat) : Nat → PollOutcome × Nat
  | 0 => (PollOutcome.err "Timeout waiting for session to complete.", 0)
  | fuel + 1 =>
    if (polls i).status_code ≠ 200 then
      (PollOutcome.err ("Failed to get session status: " ++ (polls i).text), 1)
    else
      match (polls i).json with
      | none => (PollOutcome.exn "JSONDecodeError", 1)
      | some body =>
        match body.data with
        | none =>
          match poll_session_go polls (i + 1) fuel with
          | (r, n) => (r, n + 1)
        | some d =>
          if d.session_status = some "complete" then (PollOutcome.ok d, 1)
          else if d.session_status = some "failed" then (PollOutcome.err "Session failed.", 1)
          else
            match poll_session_go polls (i + 1) fuel with
            | (r, n) => (r, n + 1)

/-- Model of `poll_session` (lines 88-112), returning its result and the number
of status GETs it issued. -/
def poll_session (polls : Nat → PollResponse) (interval timeout : Nat) : PollOutcome × Nat :=
  poll_session_go polls 0 (poll_count interval timeout)

/-- An artifact-download HTTP response.  `chunks` are the body chunks
delivered by `iter_content`; `interrupted = true` models a transfer that
raises after delivering them. -/
structure DlResponse where
  status_code : Nat
  text : String
  chunks : List String
  interrupted : Bool
deriving DecidableEq

/-- How `download_file` ends: normal return of `None`, return of an
error string, or a raised exception mid-stream. -/
inductive DlResult
  | ok
  | err (msg : String)
  | exn
deriving DecidableEq

/-- Model of `download_file` (lines 115-123).  First component: the content
present at `out_path` after the call (`none` = the file was never
opened, i.e. the destination is untouched).  The script opens the final
destination with mode `"wb"` and streams chunks into it, so on a 200
response the file at the final path holds the delivered chunks whether
or not the transfer completed. -/
def download_file (resp : DlResponse) : Option String × DlResult :=
  if resp.status_code ≠ 200 then
    (none, DlResult.err ("Failed to download file: " ++ resp.text))
  else
    if resp.interrupted then
      (some (String.join (resp.chunks.filter (fun c => c ≠ ""))), DlResult.exn)
    else
      (some (String.join (resp.chunks.filter (fun c => c ≠ ""))), DlResult.ok)

/-- Side effects of one job, in program order. -/
inductive Event
  | submitReq
  | pollReq
  | downloadReq (url : String)
  | fileWrite (path : String) (content : String)
  | move (src : String) (dst : String)
deriving DecidableEq

/-- The write event produced by `download_file` at `path`, if the file
was opened. -/
def writeEvents (path : String) (written : Option String) : List Event :=
  match written with
  | none => []
  | some content => [Event.fileWrite path content]

/-- The `(src, dst)` pairs of the `shutil.move` calls recorded in a
trace. -/
def movesOf (tr : List Event) : List (String × String) :=
  tr.filterMap (fun e =>
    match e with
    | Event.move s d => some (s, d)
    | _ => none)

/-- The result tuple of `process_image`: image name, artifact path (only
on success), status string. -/
abbrev Outcome := String × Option String × String

/-- Per-job stub of the remote service and filesystem: the response to
the creation POST, the response stream for status polls, and the
download response for each artifact URL. -/
structure RemoteEnv where
  startResp : Response
  pollResps : Nat → PollResponse
  dlResp : String → DlResponse

/-- Model of `mesh_url = session_data.get("mesh_url_glb"); if not mesh_url`:
the URL, filtered through Python truthiness. -/
def meshUrl (d : PollData) : Option String :=
  match d.mesh_url_glb with
  | none => none
  | some s => if s = "" then none else some s

/-- Lines 142-153 of `process_image`: artifact extraction, download and
relocation, given the completed session payload.  Returned events are
those after the polling phase. -/
def fetch_and_stage (env : RemoteEnv) (img : String) (d : PollData) :
    Except String Outcome × List Event :=
  match meshUrl d with
  | none => (Except.ok (img, none, "no_mesh"), [])
  | some mesh_url =>
    match download_file (env.dlResp mesh_url) with
    | (written, DlResult.exn) =>
      (Except.error "DownloadInterrupted",
        Event.downloadReq mesh_url :: writeEvents (out_path_for img) written)
    | (written, DlResult.err _) =>
      (Except.ok (img, none, "download_error"),
        Event.downloadReq mesh_url :: writeEvents (out_path_for img) written)
    | (written, DlResult.ok) =>
      (Except.ok (img, some (out_path_for img), "success"),
        Event.downloadReq mesh_url :: writeEvents (out_path_for img) written
          ++ [Event.move (CONCEPTS_DIR ++ "/" ++ img) (PROCESSED_DIR ++ "/" ++ img)])

/-- Model of `process_image` (lines 131-153): the per-job runner.  Returns the
script's result tuple (or a propagating exception) together with the
job's event trace.  The script's error messages are non-empty, so the
truthiness test `if err:` is modelled by `Option` presence.
`poll_session` is called with its default interval 10 and timeout 600. -/
def process_image (env : RemoteEnv) (img : String) :
    Except String Outcome × List Event :=
  match start_session env.startResp with
  | Except.error e => (Except.error e, [Event.submitReq])
  | Except.ok (_, some _) => (Except.ok (img, none, "error"), [Event.submitReq])
  | Except.ok (_, none) =>
    match poll_session env.pollResps 10 600 with
    | (PollOutcome.exn e, n) =>
      (Except.error e, Event.submitReq :: List.replicate n Event.pollReq)
    | (PollOutcome.err _, n) =>
      (Except.ok (img, none, "error"), Event.submitReq :: List.replicate n Event.pollReq)
    | (PollOutcome.ok d, n) =>
      match fetch_and_stage env img d with
      | (r, evs) => (r, Event.submitReq :: List.replicate n Event.pollReq ++ evs)

/-- Test for an `Except` value carrying a result rather than an exception. -/
def isOkE {ε α : Type} (e : Except ε α) : Bool :=
  match e with
  | Except.ok _ => true
  | Except.error _ => false

/-- The collection loop of `main` (lines 163-167): results are gathered
in completion order (`order`, an arbitrary permutation of the image
list); `future.result()` re-raises the first exceptional job, in which
case the loop aborts and the summary is never printed. -/
def collectSummary (envs : String → RemoteEnv) : List String → Except String (List Outcome)
  | [] => Except.ok []
  | img :: rest =>
    match (process_image (envs img) img).1 with
    | Except.error e => Except.error e
    | Except.ok oc =>
      match collectSummary envs rest with
      | Except.error e => Except.error e
      | Except.ok s => Except.ok (oc :: s)

/-- A per-job stub whose responses never make the script raise: bodies
that arrive under a success status are parseable and no download stream
is interrupted.  Any error status, remote failure, timeout or missing
artifact is still allowed. -/
def WellFormedEnv (env : RemoteEnv) : Prop :=
  ((env.startResp.status_code = 200 ∨ env.startResp.status_code = 201) →
      env.startResp.body.isSome = true)
  ∧ (∀ i : Nat, (env.pollResps i).status_code = 200 → ((env.pollResps i).json).isSome = true)
  ∧ (∀ url : String, (env.dlResp url).interrupted = false)

/-- A poll response that is delivered and parsed but reports no terminal
session status. -/
def nonTerminalResp (resp : PollResponse) : Bool :=
  (resp.status_code == 200) &&
    (match resp.json with
     | none => false
     | some body =>
       match body.data with
       | none => true
       | some d =>
         !(d.session_status == some "complete") && !(d.session_status == some "failed"))

/-- A creation response with a parseable body and a session code. -/
def goodStartResp : Response := ⟨200, "", some ⟨some ⟨some "sess123"⟩⟩⟩

/-- A poll response still in progress. -/
def pendingPoll : PollResponse := ⟨200, "", some ⟨some ⟨some "processing", 5, none⟩⟩⟩

/-- A poll response reporting the remote job failed. -/
def failedPoll : PollResponse := ⟨200, "", some ⟨some ⟨some "failed", 50, none⟩⟩⟩

/-- A poll response reporting completion with an artifact URL. -/
def goodPoll : PollResponse := ⟨200, "", some ⟨some ⟨some "complete", 100, some "mesh.glb"⟩⟩⟩

/-- A healthy download response. -/
def goodDl : DlResponse := ⟨200, "", ["glb-bytes"], false⟩

/-- A download that delivers one chunk and is then interrupted. -/
def interruptedDl : DlResponse := ⟨200, "", ["ab"], true⟩

/-- A download rejected by the server. -/
def notFoundDl : DlResponse := ⟨404, "nope", [], false⟩

/-- A creation response whose body is not valid JSON under a success
status. -/
def malformedResp : Response := ⟨200, "not json", none⟩

/-- Environment in which every stage succeeds. -/
def goodEnv : RemoteEnv := ⟨goodStartResp, fun _ => goodPoll, fun _ => goodDl⟩

/-- Environment whose creation request is rejected by the server. -/
def subFailEnv : RemoteEnv := ⟨⟨500, "quota exceeded", none⟩, fun _ => pendingPoll, fun _ => goodDl⟩

/-- Environment whose remote job is reported failed on the first poll. -/
def remoteFailEnv : RemoteEnv := ⟨goodStartResp, fun _ => failedPoll, fun _ => goodDl⟩

/-- Environment whose creation response body is unparseable. -/
def submitMalformedEnv : RemoteEnv := ⟨malformedResp, fun _ => pendingPoll, fun _ => goodDl⟩

/-- Environment whose first poll response body is unparseable. -/
def pollMalformedEnv : RemoteEnv :=
  ⟨goodStartResp, fun _ => ⟨200, "garbage", none⟩, fun _ => goodDl⟩

/-- Appending strings appends their underlying character lists. -/
theorem str_append_data (s t : String) : (s ++ t).data = s.data ++ t.data := by
  cases s; cases t; rfl

/-- The polling loop never issues more requests than its fuel allows. -/
theorem poll_go_count_le (polls : Nat → PollResponse) :
    ∀ fuel i, (poll_session_go polls i fuel).2 ≤ fuel := by
  intro fuel
  induction fuel with
  | zero => intro i; exact Nat.le_refl 0
  | succ f ih =>
    intro i
    simp only [poll_session_go]
    split
    · simp
    · split
      · simp
      · split
        · have := ih (i + 1)
          cases hrec : poll_session_go polls (i + 1) f with
          | mk r n => rw [hrec] at this; simpa using Nat.succ_le_succ this
        · split
          · simp
          · split
            · simp
            · have := ih (i + 1)
              cases hrec : poll_session_go polls (i + 1) f with
              | mk r n => rw [hrec] at this; simpa using Nat.succ_le_succ this

/-- If the first `fuel` responses are delivered, parsed and
non-terminal, the loop spends all its fuel and times out, issuing
exactly `fuel` GET requests. -/
theorem poll_go_timeout (polls : Nat → PollResponse) :
    ∀ fuel i, (∀ k, k < fuel → nonTerminalResp (polls (i + k)) = true) →
      poll_session_go polls i fuel
        = (PollOutcome.err "Timeout waiting for session to complete.", fuel) := by
  intro fuel
  induction fuel with
  | zero => intro i h; rfl
  | succ f ih =>
    intro i h
    have h0 : nonTerminalResp (polls i) = true := by
      simpa using h 0 (Nat.succ_pos f)
    unfold nonTerminalResp at h0
    rw [Bool.and_eq_true] at h0
    obtain ⟨hsc, hrest⟩ := h0
    have hsc' : (polls i).status_code = 200 := by simpa using hsc
    have hnext : poll_session_go polls (i + 1) f
        = (PollOutcome.err "Timeout waiting for session to complete.", f) := by
      apply ih
      intro k hk
      have heq : i + 1 + k = i + (k + 1) := by omega
      rw [heq]
      exact h (k + 1) (by omega)
    simp only [poll_session_go, hsc', ne_eq, not_true_eq_false, if_false]
    cases hj : (polls i).json with
    | none => simp only [hj] at hrest; simp at hrest
    | some body =>
      simp only [hj] at hrest
      cases hd : body.data with
      | none => simp [hd, hnext]
      | some d =>
        simp only [hd] at hrest
        rw [Bool.and_eq_true] at hrest
        obtain ⟨hc, hf⟩ := hrest
        have hc' : ¬ d.session_status = some "complete" := by
          simpa using hc
        have hf' : ¬ d.session_status = some "failed" := by
          simpa using hf
        simp [hd, hc', hf', hnext]

/-- If every delivered poll response with a success status has a
parseable body, the loop never raises. -/
theorem poll_go_no_exn (polls : Nat → PollResponse)
    (hp : ∀ j, (polls j).status_code = 200 → ((polls j).json).isSome = true) :
    ∀ fuel i e, (poll_session_go polls i fuel).1 ≠ PollOutcome.exn e := by
  intro fuel
  induction fuel with
  | zero => intro i e; simp [poll_session_go]
  | succ f ih =>
    intro i e
    simp only [poll_session_go]
    split
    · simp
    · next hne =>
      have hsc : (polls i).status_code = 200 := by
        by_contra hcon
        exact hne hcon
      cases hj : (polls i).json with
      | none =>
        have := hp i hsc
        rw [hj] at this
        simp at this
      | some body =>
        simp only [hj]
        cases hd : body.data with
        | none =>
          cases hrec : poll_session_go polls (i + 1) f with
          | mk r n =>
            have := ih (i + 1) e
            rw [hrec] at this
            simpa [hd, hrec] using this
        | some d =>
          simp only [hd]
          split
          · simp
          · split
            · simp
            · cases hrec : poll_session_go polls (i + 1) f with
              | mk r n =>
                have := ih (i + 1) e
                rw [hrec] at this
                simpa [hrec] using this

/-- An uninterrupted download never raises. -/
theorem download_file_no_exn (resp : DlResponse) (h : resp.interrupted = false) :
    (download_file resp).2 ≠ DlResult.exn := by
  unfold download_file
  split
  · simp
  · rw [h]
    simp

/-- A download returns `ok` exactly on a 200 status with an
uninterrupted stream, and the full delivered content is then at the
destination. -/
theorem download_file_ok_shape (resp : DlResponse) (w : Option String)
    (h : download_file resp = (w, DlResult.ok)) :
    resp.status_code = 200 ∧ resp.interrupted = false
      ∧ w = some (String.join (resp.chunks.filter (fun c => c ≠ ""))) := by
  unfold download_file at h
  split at h
  · simp at h
  · next hne =>
    have hsc : resp.status_code = 200 := by
      by_contra hcon
      exact hne hcon
    split at h
    · simp at h
    · next hint =>
      refine ⟨hsc, by simpa using hint, ?_⟩
      exact (Prod.mk.injEq _ _ _ _ ▸ h).1.symm ▸ rfl

/-- Under a well-formed creation response, `start_session` never
raises. -/
theorem start_session_no_error (resp : Response)
    (h : (resp.status_code = 200 ∨ resp.status_code = 201) → resp.body.isSome = true)
    (e : String) : start_session resp ≠ Except.error e := by
  unfold start_session
  split
  · next hst =>
    cases hb : resp.body with
    | none =>
      have := h hst
      rw [hb] at this
      simp at this
    | some b =>
      simp only [hb]
      cases hd : b.data with
      | none => simp
      | some d =>
        simp only [hd]
        cases hc : d.session_code with
        | none => simp
        | some sc =>
          simp only [hc]
          split
          · simp
          · simp
  · simp

/-- Any value outcome of the fetch/stage phase carries the job's image
name and one of its three statuses, with the artifact path exactly on
success. -/
theorem fetch_ok_shape (env : RemoteEnv) (img : String) (d : PollData) (oc : Outcome)
    (h : (fetch_and_stage env img d).1 = Except.ok oc) :
    oc.1 = img ∧ (oc.2.2 = "no_mesh" ∨ oc.2.2 = "download_error"
      ∨ (oc.2.1 = some (out_path_for img) ∧ oc.2.2 = "success")) := by
  unfold fetch_and_stage at h
  cases hm : meshUrl d with
  | none =>
    simp only [hm] at h
    simp only [Except.ok.injEq] at h
    subst h
    simp
  | some u =>
    simp only [hm] at h
    cases hdl : download_file (env.dlResp u) with
    | mk w r =>
      simp only [hdl] at h
      cases r with
      | exn => simp at h
      | err m =>
        simp only [Except.ok.injEq] at h
        subst h
        simp
      | ok =>
        simp only [Except.ok.injEq] at h
        subst h
        simp

/-- Any value outcome of `process_image` carries the job's image name
and one of the four status strings the script can produce. -/
theorem process_image_ok_shape (env : RemoteEnv) (img : String) (oc : Outcome)
    (h : (process_image env img).1 = Except.ok oc) :
    oc.1 = img ∧ (oc.2.2 = "success" ∨ oc.2.2 = "error"
      ∨ oc.2.2 = "no_mesh" ∨ oc.2.2 = "download_error") := by
  unfold process_image at h
  cases hs : start_session env.startResp with
  | error e => simp only [hs] at h; simp at h
  | ok v =>
    obtain ⟨sc, err⟩ := v
    cases err with
    | some msg =>
      simp only [hs, Except.ok.injEq] at h
      subst h
      simp
    | none =>
      simp only [hs] at h
      cases hp : poll_session env.pollResps 10 600 with
      | mk pres n =>
        simp only [hp] at h
        cases pres with
        | exn e => simp at h
        | err m =>
          simp only [Except.ok.injEq] at h
          subst h
          simp
        | ok d =>
          cases hf : fetch_and_stage env img d with
          | mk r evs =>
            simp only [hf] at h
            have h' : (fetch_and_stage env img d).1 = Except.ok oc := by
              rw [hf]
              exact h
            obtain ⟨h1, h2⟩ := fetch_ok_shape env img d oc h' 
            refine ⟨h1, ?_⟩
            rcases h2 with h2 | h2 | ⟨_, h2⟩
            · exact Or.inr (Or.inr (Or.inl h2))
            · exact Or.inr (Or.inr (Or.inr h2))
            · exact Or.inl h2

/-- When no download stream is interrupted, the fetch/stage phase
returns a value. -/
theorem fetch_isOk (env : RemoteEnv) (img : String) (d : PollData)
    (h3 : ∀ url, (env.dlResp url).interrupted = false) :
    isOkE ((fetch_and_stage env img d).1) = true := by
  unfold fetch_and_stage
  cases hm : meshUrl d with
  | none => simp [isOkE]
  | some u =>
    simp only [hm]
    cases hdl : download_file (env.dlResp u) with
    | mk w r =>
      cases r with
      | exn =>
        have hne := download_file_no_exn (env.dlResp u) (h3 u)
        rw [hdl] at hne
        simp at hne
      | err m => simp [isOkE]
      | ok => simp [isOkE]

/-- Under a well-formed per-job stub, the Job Runner returns a value:
every error the script checks for is turned into an outcome tuple. -/
theorem process_image_isOk (env : RemoteEnv) (img : String) (h : WellFormedEnv env) :
    isOkE ((process_image env img).1) = true := by
  obtain ⟨h1, h2, h3⟩ := h
  unfold process_image
  cases hs : start_session env.startResp with
  | error e => exact absurd hs (start_session_no_error env.startResp h1 e)
  | ok v =>
    obtain ⟨sc, err⟩ := v
    cases err with
    | some msg => simp [hs, isOkE]
    | none =>
      simp only [hs]
      cases hp : poll_session env.pollResps 10 600 with
      | mk pres n =>
        cases pres with
        | exn e =>
          have hne : (poll_session env.pollResps 10 600).1 ≠ PollOutcome.exn e :=
            poll_go_no_exn env.pollResps h2 (poll_count 10 600) 0 e
          rw [hp] at hne
          simp at hne
        | err m => simp [isOkE]
        | ok d =>
          cases hf : fetch_and_stage env img d with
          | mk r evs =>
            simp only [hf]
            have := fetch_isOk env img d h3
            rw [hf] at this
            simpa using this

/-- Polling GETs relocate nothing. -/
theorem movesOf_replicate (n : Nat) :
    movesOf (List.replicate n Event.pollReq) = [] := by
  induction n with
  | zero => rfl
  | succ k ih => simp [movesOf, List.replicate_succ]

/-- The recorded relocations distribute over trace concatenation. -/
theorem movesOf_append (a b : List Event) :
    movesOf (a ++ b) = movesOf a ++ movesOf b := by
  simp [movesOf]

/-- The stream-write phase relocates nothing. -/
theorem movesOf_writeEvents (p : String) (w : Option String) :
    movesOf (writeEvents p w) = [] := by
  cases w with
  | none => rfl
  | some c => rfl

/-- A value outcome of `process_image` names the processed image. -/
theorem process_image_ok_fst (env : RemoteEnv) (img : String) (oc : Outcome)
    (h : (process_image env img).1 = Except.ok oc) : oc.1 = img :=
  (process_image_ok_shape env img oc h).1

/-- If every job of the completion order returns a value, the collection
loop returns the list of their outcomes, one per job, in that order. -/
theorem collect_ok_of_all_ok (envs : String → RemoteEnv) :
    ∀ order : List String,
      (∀ img, img ∈ order → isOkE ((process_image (envs img) img).1) = true) →
      ∃ summary, collectSummary envs order = Except.ok summary
        ∧ summary.map (fun oc => oc.1) = order := by
  intro order
  induction order with
  | nil => intro h; exact ⟨[], rfl, rfl⟩
  | cons img rest ih =>
    intro h
    have h1 := h img (List.mem_cons_self img rest)
    cases hp : (process_image (envs img) img).1 with
    | error e => rw [hp] at h1; simp [isOkE] at h1
    | ok oc =>
      obtain ⟨s, hs, hmap⟩ := ih (fun i hi => h i (List.mem_cons_of_mem _ hi))
      refine ⟨oc :: s, ?_, ?_⟩
      · simp only [collectSummary, hp, hs]
      · have hfst : oc.1 = img := process_image_ok_fst (envs img) img oc hp
        simp [hmap, hfst]

/-- The fetch/stage phase relocates the source exactly when it returns
the success outcome, and its trace never holds more than that one
relocation. -/
theorem fetch_moves (env : RemoteEnv) (img : String) (d : PollData) :
    (movesOf (fetch_and_stage env img d).2
        = [(CONCEPTS_DIR ++ "/" ++ img, PROCESSED_DIR ++ "/" ++ img)]
      ↔ (fetch_and_stage env img d).1
        = Except.ok (img, some (out_path_for img), "success"))
    ∧ (movesOf (fetch_and_stage env img d).2 = []
      ∨ movesOf (fetch_and_stage env img d).2
        = [(CONCEPTS_DIR ++ "/" ++ img, PROCESSED_DIR ++ "/" ++ img)]) := by
  unfold fetch_and_stage
  cases hm : meshUrl d with
  | none => simp [hm, movesOf]
  | some u =>
    simp only [hm]
    cases hdl : download_file (env.dlResp u) with
    | mk w dr =>
      cases dr with
      | exn => cases w <;> simp [movesOf, writeEvents]
      | err m => cases w <;> simp [movesOf, writeEvents]
      | ok => cases w <;> simp [movesOf, writeEvents]

/-- On the success outcome, the fetch/stage phase performs exactly the
download request, the write of the artifact at its output path, and the
relocation, in that order. -/
theorem fetch_success_trace (env : RemoteEnv) (img : String) (d : PollData) (out : Option String)
    (h : (fetch_and_stage env img d).1 = Except.ok (img, out, "success")) :
    ∃ url content, (fetch_and_stage env img d).2
      = [Event.downloadReq url,
         Event.fileWrite (out_path_for img) content,
         Event.move (CONCEPTS_DIR ++ "/" ++ img) (PROCESSED_DIR ++ "/" ++ img)] := by
  unfold fetch_and_stage at h ⊢
  cases hm : meshUrl d with
  | none => simp only [hm] at h; simp at h
  | some u =>
    simp only [hm] at h ⊢
    cases hdl : download_file (env.dlResp u) with
    | mk w dr =>
      cases dr with
      | exn => rw [hdl] at h; simp at h
      | err m => rw [hdl] at h; simp at h
      | ok =>
        obtain ⟨-, -, hw⟩ := download_file_ok_shape (env.dlResp u) w hdl
        refine ⟨u, String.join ((env.dlResp u).chunks.filter (fun c => c ≠ "")), ?_⟩
        rw [hw]
        simp [writeEvents]

/-- C3: for every job, the source image is relocated — one
`shutil.move` from the concepts directory to the processed directory —
if and only if the job's outcome is `"success"` (with its artifact
path), and the job's trace never holds more than that one relocation. -/
theorem C3_relocated_iff_success (env : RemoteEnv) (img : String) :
    (movesOf (process_image env img).2
        = [(CONCEPTS_DIR ++ "/" ++ img, PROCESSED_DIR ++ "/" ++ img)]
      ↔ (process_image env img).1
        = Except.ok (img, some (out_path_for img), "success"))
    ∧ (movesOf (process_image env img).2 = []
      ∨ movesOf (process_image env img).2
        = [(CONCEPTS_DIR ++ "/" ++ img, PROCESSED_DIR ++ "/" ++ img)]) := by
  unfold process_image
  cases hs : start_session env.startResp with
  | error e => simp [movesOf]
  | ok v =>
    obtain ⟨sc, err⟩ := v
    cases err with
    | some msg => simp [movesOf]
    | none =>
      cases hp : poll_session env.pollResps 10 600 with
      | mk pres n =>
        cases pres with
        | exn e => simp [movesOf, movesOf_replicate]
        | err m => simp [movesOf, movesOf_replicate]
        | ok d =>
          have hmv := fetch_moves env img d
          simp only [movesOf, List.filterMap_cons, List.filterMap_append] at hmv ⊢
          have hrep : List.filterMap
              (fun e => match e with
                | Event.move s d => some (s, d)
                | _ => none) (List.replicate n Event.pollReq) = [] := by
            have := movesOf_replicate n
            simp only [movesOf] at this
            exact this
          simpa [hrep] using hmv

/-- With at least one unit of fuel the loop issues at least one GET. -/
theorem poll_go_count_pos (polls : Nat → PollResponse) (f i : Nat) :
    1 ≤ (poll_session_go polls i (f + 1)).2 := by
  simp only [poll_session_go]
  split
  · simp
  · split
    · simp
    · split
      · cases hrec : poll_session_go polls (i + 1) f with
        | mk r n => simp
      · split
        · simp
        · split
          · simp
          · cases hrec : poll_session_go polls (i + 1) f with
            | mk r n => simp

/-- C4: a job reaches the `"success"` outcome only through the full
ordered pipeline: one submission request, then at least one status
poll, then the artifact download request, then the write of the
artifact at its output path, and finally — as the last action — the
relocation of the source image.  In particular the download and the
durable write strictly precede the relocation. -/
theorem C4_success_order (env : RemoteEnv) (img : String) (out : Option String)
    (h : (process_image env img).1 = Except.ok (img, out, "success")) :
    ∃ n url content, 1 ≤ n ∧
      (process_image env img).2
        = Event.submitReq :: (List.replicate n Event.pollReq
            ++ [Event.downloadReq url,
                Event.fileWrite (out_path_for img) content,
                Event.move (CONCEPTS_DIR ++ "/" ++ img) (PROCESSED_DIR ++ "/" ++ img)]) := by
  unfold process_image at h ⊢
  cases hs : start_session env.startResp with
  | error e => simp only [hs] at h; simp at h
  | ok v =>
    obtain ⟨sc, err⟩ := v
    cases err with
    | some msg => simp only [hs] at h; simp at h
    | none =>
      simp only [hs] at h ⊢
      cases hp : poll_session env.pollResps 10 600 with
      | mk pres n =>
        rw [hp] at h
        cases pres with
        | exn e => simp at h
        | err m => simp at h
        | ok d =>
          have hr : (fetch_and_stage env img d).1 = Except.ok (img, out, "success") := by
            simpa using h
          obtain ⟨url, content, htr⟩ := fetch_success_trace env img d out hr
          have h60 : poll_session_go env.pollResps 0 60 = (PollOutcome.ok d, n) := hp
          have hpos : 1 ≤ (poll_session_go env.pollResps 0 60).2 :=
            poll_go_count_pos env.pollResps 59 0
          rw [h60] at hpos
          refine ⟨n, url, content, by simpa using hpos, ?_⟩
          simp [htr]

/-- C4 witness: in the healthy environment the success trace is
submission, one poll, download, write, relocation — relocation last. -/
theorem C4_success_order_witness :
    ∃ n url content, 1 ≤ n ∧
      (process_image goodEnv "a.png").2
        = Event.submitReq :: (List.replicate n Event.pollReq
            ++ [Event.downloadReq url,
                Event.fileWrite (out_path_for "a.png") content,
                Event.move (CONCEPTS_DIR ++ "/" ++ "a.png") (PROCESSED_DIR ++ "/" ++ "a.png")]) :=
  C4_success_order goodEnv "a.png" (some "content/result/a.glb") rfl

/-- C6: polling a session that never reaches a terminal remote status
performs exactly `⌈timeout / interval⌉` status requests and then
returns the timeout error; moreover no response stream ever makes the
loop issue more requests than that, so the total wait is bounded by
`timeout / interval` round trips (60 with the script's defaults of
interval 10 and timeout 600). -/
theorem C6_timeout_poll_count (polls : Nat → PollResponse) (interval timeout : Nat)
    (_hpos : 0 < interval)
    (h : ∀ k, k < poll_count interval timeout → nonTerminalResp (polls k) = true) :
    poll_session polls interval timeout
      = (PollOutcome.err "Timeout waiting for session to complete.",
         poll_count interval timeout)
    ∧ ∀ polls' : Nat → PollResponse,
        (poll_session polls' interval timeout).2 ≤ poll_count interval timeout := by
  constructor
  · unfold poll_session
    apply poll_go_timeout
    intro k hk
    simpa using h k hk
  · intro polls'
    exact poll_go_count_le polls' (poll_count interval timeout) 0

/-- C6 witness: with timeout 30 and interval 10, a never-terminal
session is polled exactly 3 times — never 2 or 4. -/
theorem C6_timeout_poll_count_witness :
    (0 < 10
      ∧ poll_session (fun _ => pendingPoll) 10 30
          = (PollOutcome.err "Timeout waiting for session to complete.", 3))
    ∧ ∀ polls' : Nat → PollResponse, (poll_session polls' 10 30).2 ≤ 3 := by
  have h := C6_timeout_poll_count (fun _ => pendingPoll) 10 30 (by decide) (by decide)
  exact ⟨⟨by decide, h.1⟩, h.2⟩

/-- C7: a job whose submission fails (the script's `err` is set)
terminates immediately with the `"error"` outcome; its whole trace is
the single submission request — no status poll, no artifact fetch, no
file write, no relocation. -/
theorem C7_short_circuit (env : RemoteEnv) (img msg : String)
    (h : start_session env.startResp = Except.ok (none, some msg)) :
    process_image env img = (Except.ok (img, none, "error"), [Event.submitReq]) := by
  unfold process_image
  rw [h]

/-- C7 witness: a rejected creation request (HTTP 500) yields the
`"error"` outcome with a submission-only trace. -/
theorem C7_short_circuit_witness :
    process_image subFailEnv "a.png"
      = (Except.ok ("a.png", none, "error"), [Event.submitReq]) :=
  C7_short_circuit subFailEnv "a.png" "Failed to start session: quota exceeded" rfl

/-- C1 counterexample: a creation response whose body is not valid JSON
— a terminal submission-error condition per the spec — is not returned
as a value: `resp.json()` raises, `future.result()` re-raises in the
collection loop, and the batch of one job ends with a propagated
failure and no summary at all. -/
theorem C1_counterexample :
    isOkE (collectSummary (fun _ => submitMalformedEnv) ["a.png"]) = false
    ∧ collectSummary (fun _ => submitMalformedEnv) ["a.png"]
        = Except.error "JSONDecodeError" := by
  constructor
  · rfl
  · rfl

/-- C1 amended: whenever every response body that arrives under a
success status is parseable and no download stream is interrupted, every
job ends in a value outcome — all detected error conditions included —
and the collection loop returns one outcome per dispatched job, in
completion order, so the summary accounts for every job. -/
theorem C1_errors_as_values (envs : String → RemoteEnv) (images order : List String)
    (hperm : order.Perm images)
    (hwf : ∀ img, img ∈ images → WellFormedEnv (envs img)) :
    ∃ summary, collectSummary envs order = Except.ok summary
      ∧ summary.map (fun oc => oc.1) = order
      ∧ summary.length = images.length := by
  obtain ⟨s, hs, hm⟩ := collect_ok_of_all_ok envs order (fun img hi =>
    process_image_isOk (envs img) img (hwf img (hperm.mem_iff.mp hi)))
  refine ⟨s, hs, hm, ?_⟩
  rw [← hperm.length_eq, ← hm, List.length_map]

/-- C1 amended witness: one healthy job and one job with every kind of
detected failure still produce a complete two-row summary. -/
theorem C1_errors_as_values_witness :
    ∃ summary, collectSummary
        (fun img => if img = "a.png" then goodEnv else subFailEnv) ["b.jpg", "a.png"]
        = Except.ok summary
      ∧ summary.map (fun oc => oc.1) = ["b.jpg", "a.png"]
      ∧ summary.length = (["a.png", "b.jpg"] : List String).length := by
  refine C1_errors_as_values (fun img => if img = "a.png" then goodEnv else subFailEnv)
    ["a.png", "b.jpg"] ["b.jpg", "a.png"] (List.Perm.swap "a.png" "b.jpg" []) ?_
  intro img hi
  rcases List.mem_cons.mp hi with rfl | hi2
  · exact ⟨fun _ => rfl, fun i _ => rfl, fun url => rfl⟩
  · rcases List.mem_cons.mp hi2 with rfl | hi3
    · exact ⟨fun hcon => by simp [subFailEnv] at hcon, fun i _ => rfl, fun url => rfl⟩
    · cases hi3

/-- C2 counterexample: a batch of one descriptor whose poll response
body is unparseable produces zero Outcomes, not one — the collection
loop aborts with the re-raised exception instead of an outcome list. -/
theorem C2_counterexample :
    isOkE (collectSummary (fun _ => pollMalformedEnv) ["b.jpg"]) = false
    ∧ collectSummary (fun _ => pollMalformedEnv) ["b.jpg"]
        = Except.error "JSONDecodeError" := by
  constructor
  · rfl
  · rfl

/-- C2 amended: provided every job of the batch returns a value outcome
(no unhandled exception), a batch of `N` distinct images produces
exactly `N` Outcomes whose image names are exactly the `N` inputs —
a bijection — listed in completion order, an arbitrary permutation of
the input order. -/
theorem C2_outcome_bijection (envs : String → RemoteEnv) (images order : List String)
    (hnd : images.Nodup) (hperm : order.Perm images)
    (hok : ∀ img, img ∈ images → isOkE ((process_image (envs img) img).1) = true) :
    ∃ summary, collectSummary envs order = Except.ok summary
      ∧ summary.length = images.length
      ∧ summary.map (fun oc => oc.1) = order
      ∧ (summary.map (fun oc => oc.1)).Nodup
      ∧ (summary.map (fun oc => oc.1)).Perm images := by
  obtain ⟨s, hs, hm⟩ := collect_ok_of_all_ok envs order (fun img hi =>
    hok img (hperm.mem_iff.mp hi))
  refine ⟨s, hs, ?_, hm, ?_, ?_⟩
  · rw [← hperm.length_eq, ← hm, List.length_map]
  · rw [hm]
    exact (List.Perm.nodup_iff hperm).mpr hnd
  · rw [hm]
    exact hperm

/-- C2 witness: two images, collected in reversed completion order,
give a summary of exactly two outcomes naming exactly the two inputs. -/
theorem C2_outcome_bijection_witness :
    ∃ summary, collectSummary (fun _ => goodEnv) ["b.jpg", "a.png"] = Except.ok summary
      ∧ summary.length = (["a.png", "b.jpg"] : List String).length
      ∧ summary.map (fun oc => oc.1) = ["b.jpg", "a.png"]
      ∧ (summary.map (fun oc => oc.1)).Nodup
      ∧ (summary.map (fun oc => oc.1)).Perm ["a.png", "b.jpg"] := by
  refine C2_outcome_bijection (fun _ => goodEnv) ["a.png", "b.jpg"] ["b.jpg", "a.png"]
    (by decide) (List.Perm.swap "a.png" "b.jpg" []) ?_
  intro img hi
  rcases List.mem_cons.mp hi with rfl | hi2
  · rfl
  · rcases List.mem_cons.mp hi2 with rfl | hi3
    · rfl
    · cases hi3

/-- C5 counterexample: two different error triggers of the taxonomy — a
rejected creation request (SubmissionError) and a remote-reported job
failure (RemoteFailure) — are recorded with the identical outcome
status string `"error"`, so they are not distinguishable from the
Outcome. -/
theorem C5_counterexample :
    (process_image subFailEnv "a.png").1 = Except.ok ("a.png", none, "error")
    ∧ (process_image remoteFailEnv "a.png").1 = Except.ok ("a.png", none, "error") := by
  constructor
  · rfl
  · rfl

/-- C5 amended: every value outcome of a job carries one of exactly
four status strings — `"success"`, `"error"` (covering submission
errors, poll transport errors, remote-reported failures and timeouts
alike), `"no_mesh"` (missing artifact) and `"download_error"` — so only
the missing-artifact and download-failure triggers are distinguishable
from the other error kinds, not the four poll-stage/submission kinds
from one another. -/
theorem C5_status_range (env : RemoteEnv) (img : String) (oc : Outcome)
    (h : (process_image env img).1 = Except.ok oc) :
    oc.2.2 = "success" ∨ oc.2.2 = "error"
      ∨ oc.2.2 = "no_mesh" ∨ oc.2.2 = "download_error" :=
  (process_image_ok_shape env img oc h).2

/-- C5 witness: the submission-failure outcome indeed lands in the
four-status range. -/
theorem C5_status_range_witness :
    (("a.png", none, "error") : Outcome).2.2 = "success"
      ∨ (("a.png", none, "error") : Outcome).2.2 = "error"
      ∨ (("a.png", none, "error") : Outcome).2.2 = "no_mesh"
      ∨ (("a.png", none, "error") : Outcome).2.2 = "download_error" :=
  C5_status_range subFailEnv "a.png" ("a.png", none, "error") rfl

/-- C8 counterexample: a creation response with success status 200 but
an unparseable body does not yield a SubmissionError value — the
`resp.json()` call raises and the exception leaves `start_session`
unhandled. -/
theorem C8_counterexample :
    start_session malformedResp = Except.error "JSONDecodeError"
    ∧ isOkE (start_session malformedResp) = false := by
  constructor
  · rfl
  · rfl

/-- C8 amended: when the body of a success-status response is
parseable, `start_session` returns a session code exactly when the
status code is 200 or 201 and the body holds a non-empty
`session_code`; in every other such case it returns a SubmissionError
value carrying response text.  (A success status with an unparseable
body instead raises, per the counterexample.) -/
theorem C8_submit_characterization (resp : Response)
    (hwf : (resp.status_code = 200 ∨ resp.status_code = 201) → resp.body.isSome = true) :
    ((∃ sc, start_session resp = Except.ok (some sc, none))
      ↔ ((resp.status_code = 200 ∨ resp.status_code = 201)
          ∧ ∃ sc, sc ≠ ""
            ∧ resp.body = some { data := some { session_code := some sc } }))
    ∧ (¬((resp.status_code = 200 ∨ resp.status_code = 201)
          ∧ ∃ sc, sc ≠ ""
            ∧ resp.body = some { data := some { session_code := some sc } })
        → ∃ msg, start_session resp = Except.ok (none, some msg)) := by
  obtain ⟨code, text, body⟩ := resp
  by_cases hst : code = 200 ∨ code = 201
  · have hbs : body.isSome = true := hwf hst
    cases body with
    | none => simp at hbs
    | some b =>
      obtain ⟨bdata⟩ := b
      cases bdata with
      | none =>
        have hss : start_session ⟨code, text, some ⟨none⟩⟩
            = Except.ok (none, some ("Unexpected response: " ++ text)) := by
          unfold start_session
          rw [if_pos hst]
        refine ⟨⟨?_, ?_⟩, fun _ => ⟨_, hss⟩⟩
        · rintro ⟨sc, hsc⟩
          rw [hss] at hsc
          simp at hsc
        · rintro ⟨-, sc, -, hb⟩
          simp at hb
      | some d =>
        obtain ⟨scode⟩ := d
        cases scode with
        | none =>
          have hss : start_session ⟨code, text, some ⟨some ⟨none⟩⟩⟩
              = Except.ok (none, some ("Unexpected response: " ++ text)) := by
            unfold start_session
            rw [if_pos hst]
          refine ⟨⟨?_, ?_⟩, fun _ => ⟨_, hss⟩⟩
          · rintro ⟨sc, hsc⟩
            rw [hss] at hsc
            simp at hsc
          · rintro ⟨-, sc, -, hb⟩
            simp at hb
        | some sc =>
          by_cases hsc : sc = ""
          · have hss : start_session ⟨code, text, some ⟨some ⟨some sc⟩⟩⟩
                = Except.ok (none, some ("Unexpected response: " ++ text)) := by
              unfold start_session
              rw [if_pos hst]
              simp [hsc]
            refine ⟨⟨?_, ?_⟩, fun _ => ⟨_, hss⟩⟩
            · rintro ⟨sc', hsc'⟩
              rw [hss] at hsc'
              simp at hsc'
            · rintro ⟨-, sc', hne, hb⟩
              simp only [Option.some.injEq, StartBody.mk.injEq, StartData.mk.injEq] at hb
              exact (hne (by rw [← hb]; exact hsc)).elim
          · have hss : start_session ⟨code, text, some ⟨some ⟨some sc⟩⟩⟩
                = Except.ok (some sc, none) := by
              unfold start_session
              rw [if_pos hst]
              simp [hsc]
            refine ⟨⟨fun _ => ⟨hst, sc, hsc, rfl⟩, fun _ => ⟨sc, hss⟩⟩, fun hn => ?_⟩
            exact absurd ⟨hst, sc, hsc, rfl⟩ hn
  · have hss : start_session ⟨code, text, body⟩
        = Except.ok (none, some ("Failed to start session: " ++ text)) := by
      unfold start_session
      rw [if_neg hst]
    refine ⟨⟨?_, ?_⟩, fun _ => ⟨_, hss⟩⟩
    · rintro ⟨sc, hsc⟩
      rw [hss] at hsc
      simp at hsc
    · rintro ⟨h1, -⟩
      exact absurd h1 hst

/-- C8 witness: a 200 response with a parseable body holding a
non-empty session code yields that code. -/
theorem C8_submit_characterization_witness :
    ∃ sc, start_session goodStartResp = Except.ok (some sc, none) :=
  (C8_submit_characterization goodStartResp (fun _ => rfl)).1.mpr
    ⟨Or.inl rfl, "sess123", by decide, rfl⟩

/-- Strings with the same character data are equal. -/
theorem str_ext (s t : String) (h : s.data = t.data) : s = t := by
  cases s
  cases t
  exact congrArg String.mk h

/-- C9 counterexample: `a.png` and `a.jpg` are two distinct files both
admitted into a batch by the image filter, yet they map to the same
artifact output path `content/result/a.glb`, so one job's artifact
silently overwrites the other's. -/
theorem C9_counterexample :
    get_image_files ["a.png", "a.jpg"] = ["a.png", "a.jpg"]
    ∧ ("a.png" : String) ≠ "a.jpg"
    ∧ out_path_for "a.png" = out_path_for "a.jpg" := by
  refine ⟨rfl, by decide, rfl⟩

/-- C9 amended: the artifact output path is the deterministic function
`RESULT_DIR/<base name>.glb` of the image's base name — so jobs whose
images have distinct base names never collide, while two images sharing
a base name under different extensions collide, per the
counterexample. -/
theorem C9_outpath_deterministic (a b : String) (h : splitextRoot a ≠ splitextRoot b) :
    out_path_for a = RESULT_DIR ++ "/" ++ splitextRoot a ++ ".glb"
    ∧ out_path_for a ≠ out_path_for b := by
  refine ⟨rfl, fun heq => h ?_⟩
  have hd := congrArg String.data heq
  simp only [out_path_for, str_append_data] at hd
  have h1 := List.append_cancel_right hd
  have h2 := List.append_cancel_left h1
  exact str_ext _ _ h2

/-- C9 amended witness: distinct base names give distinct artifact
paths. -/
theorem C9_outpath_deterministic_witness :
    out_path_for "a.png" = RESULT_DIR ++ "/" ++ splitextRoot "a.png" ++ ".glb"
    ∧ out_path_for "a.png" ≠ out_path_for "b.png" :=
  C9_outpath_deterministic "a.png" "b.png" (by decide)

/-- C10 counterexample: an interrupted transfer under a 200 status
leaves the partially delivered content at the final destination path
while the call does not end in the success outcome — the script streams
straight into the final path, so the final path is written before
success is confirmed. -/
theorem C10_counterexample :
    (download_file interruptedDl).1 = some "ab"
    ∧ (download_file interruptedDl).2 = DlResult.exn
    ∧ (download_file interruptedDl).2 ≠ DlResult.ok := by
  refine ⟨rfl, rfl, by decide⟩

/-- C10 amended: on a non-success status `download_file` returns a
DownloadError value and never touches the destination; on a 200 status
it writes the delivered chunks at the final destination path whether or
not the transfer completes, returning the success value exactly when
the stream was not interrupted — an interrupted stream instead raises,
leaving the partial file in place. -/
theorem C10_download_characterization (resp : DlResponse) :
    (resp.status_code ≠ 200 →
        download_file resp
          = (none, DlResult.err ("Failed to download file: " ++ resp.text)))
    ∧ (resp.status_code = 200 →
        (download_file resp).1
          = some (String.join (resp.chunks.filter (fun c => c ≠ ""))))
    ∧ (resp.status_code = 200 → resp.interrupted = false →
        (download_file resp).2 = DlResult.ok)
    ∧ (resp.status_code = 200 → resp.interrupted = true →
        (download_file resp).2 = DlResult.exn)
    ∧ ((download_file resp).2 = DlResult.ok →
        resp.status_code = 200 ∧ resp.interrupted = false) := by
  refine ⟨?_, ?_, ?_, ?_, ?_⟩
  · intro h
    unfold download_file
    rw [if_pos h]
  · intro h
    unfold download_file
    rw [if_neg (by simp [h])]
    cases hi : resp.interrupted <;> simp
  · intro h hi
    unfold download_file
    rw [if_neg (by simp [h]), hi]
    simp
  · intro h hi
    unfold download_file
    rw [if_neg (by simp [h]), hi]
    simp
  · intro h
    have hp : download_file resp = ((download_file resp).1, (download_file resp).2) := rfl
    rw [h] at hp
    obtain ⟨h1, h2, -⟩ := download_file_ok_shape resp (download_file resp).1 hp
    exact ⟨h1, h2⟩

/-- C10 witness: a 404 download returns the error value with the
destination untouched. -/
theorem C10_download_characterization_witness :
    download_file notFoundDl
      = (none, DlResult.err ("Failed to download file: " ++ notFoundDl.text)) :=
  (C10_download_characterization notFoundDl).1 (by decide)
